import Mathlib

/-!
Verification of the BlenderTimeKeeper session/accumulation core
(`time_keeper.py`).

The persisted scene record (`TimeKeeperData`) and the process-local
manager state (`TimeKeeperManager`) are embedded as one record,
`TimeKeeperState`.  Wall-clock reads (`time.time()`) become an explicit
`now : ℚ` argument; every access to `bpy.context.scene.timekeeper_data`
sits inside a try/except in the source, so each operation also takes an
`avail : Bool` flag telling whether that access succeeds (the except
branch of the source is the `avail = false` branch here).  Timer
registration state is a boolean (handle present or not).
-/

/-- Persisted per-document record (`TimeKeeperData` property group):
accumulated seconds and the session-start timestamp. -/
structure TimeKeeperData where
  total_time : ℚ
  session_start_time : ℚ
  deriving DecidableEq

/-- Combined state: the persisted record plus the process-local fields of
`TimeKeeperManager` (`is_running`, `last_update_time`, the timer handle
modelled as a boolean, and `modal_operator_running`). -/
structure TimeKeeperState where
  data : TimeKeeperData
  is_running : Bool
  last_update_time : ℚ
  timer : Bool
  modal_operator_running : Bool
  deriving DecidableEq

/-- `self.update_interval = 10.0`. -/
def update_interval : ℚ := 10

/-- `TimeKeeperManager.start_session`.  Returns the new state and the
boolean result.  If already running: no change, return `True`.  Otherwise,
when the scene data is accessible, set `session_start_time = now`,
`last_update_time = now`, `is_running = True`, register the timer and
return `True`; when it is not, return `False` with no change. -/
def start_session (s : TimeKeeperState) (now : ℚ) (avail : Bool) :
    TimeKeeperState × Bool :=
  if s.is_running then (s, true)
  else if avail then
    ({ data := { total_time := s.data.total_time, session_start_time := now },
       is_running := true, last_update_time := now, timer := true,
       modal_operator_running := s.modal_operator_running }, true)
  else (s, false)

/-- `TimeKeeperManager.stop_session`.  When running: if
`last_update_time > 0` and the scene data is accessible, add
`now - last_update_time` to `total_time`; then clear `is_running`, zero
`last_update_time` and unregister the timer.  No-op when idle.  Note that
`data.session_start_time` is not written. -/
def stop_session (s : TimeKeeperState) (now : ℚ) (avail : Bool) :
    TimeKeeperState :=
  if s.is_running then
    { data :=
        if 0 < s.last_update_time ∧ avail then
          { total_time := s.data.total_time + (now - s.last_update_time),
            session_start_time := s.data.session_start_time }
        else s.data,
      is_running := false, last_update_time := 0, timer := false,
      modal_operator_running := s.modal_operator_running }
  else s

/-- `TimeKeeperManager.reset`: calls `stop_session`, then clears
`modal_operator_running` and `last_update_time`. -/
def reset (s : TimeKeeperState) (now : ℚ) (avail : Bool) : TimeKeeperState :=
  { stop_session s now avail with
    modal_operator_running := false, last_update_time := 0 }

/-- `TimeKeeperManager._periodic_update_total_time`.  Only acts while
running, when the scene data is accessible, when
`now - last_update_time ≥ update_interval` and when
`session_start_time > 0`: then it adds `now - last_update_time` to
`total_time` and sets `last_update_time = now`, leaving
`session_start_time` unchanged. -/
def periodic_update_total_time (s : TimeKeeperState) (now : ℚ)
    (avail : Bool) : TimeKeeperState :=
  if s.is_running then
    if avail then
      if update_interval ≤ now - s.last_update_time then
        if 0 < s.data.session_start_time then
          { s with
            data := { total_time := s.data.total_time + (now - s.last_update_time),
                      session_start_time := s.data.session_start_time },
            last_update_time := now }
        else s
      else s
    else s
  else s

/-- `TimeKeeperManager.get_current_total_time`.  On any storage failure
the except branch returns `0.0`; otherwise it returns `total_time`, plus
`now - last_update_time` when running with positive `session_start_time`
and positive `last_update_time`. -/
def get_current_total_time (s : TimeKeeperState) (now : ℚ) (avail : Bool) :
    ℚ :=
  if avail then
    if s.is_running ∧ 0 < s.data.session_start_time ∧ 0 < s.last_update_time
    then s.data.total_time + (now - s.last_update_time)
    else s.data.total_time
  else 0

/-- `timekeeper_save_pre_handler`.  While running, with scene data
accessible and `session_start_time > 0`, it only resets
`session_start_time = now`; it never touches `total_time`. -/
def timekeeper_save_pre_handler (s : TimeKeeperState) (now : ℚ)
    (avail : Bool) : TimeKeeperState :=
  if s.is_running then
    if avail then
      if 0 < s.data.session_start_time then
        { s with
          data := { total_time := s.data.total_time,
                    session_start_time := now } }
      else s
    else s
  else s

/-- `TimeKeeperManager._timer_callback`.  If not running: no state change
and `None` is returned, which stops the timer.  While running it runs the
periodic update and returns the fixed `0.3` second re-arm interval. -/
def timer_callback (s : TimeKeeperState) (now : ℚ) (avail : Bool) :
    TimeKeeperState × Option ℚ :=
  if s.is_running then (periodic_update_total_time s now avail, some (3 / 10))
  else (s, none)

/-- The operations of the controller, for statements quantifying over all
of them. -/
inductive TKOp
  | startOp
  | stopOp
  | checkpointOp
  | saveOp
  | resetOp
  | tickOp
  deriving DecidableEq

/-- Run one operation on the state (discarding any returned value). -/
def applyOp : TKOp → TimeKeeperState → ℚ → Bool → TimeKeeperState
  | TKOp.startOp, s, now, avail => (start_session s now avail).1
  | TKOp.stopOp, s, now, avail => stop_session s now avail
  | TKOp.checkpointOp, s, now, avail => periodic_update_total_time s now avail
  | TKOp.saveOp, s, now, avail => timekeeper_save_pre_handler s now avail
  | TKOp.resetOp, s, now, avail => reset s now avail
  | TKOp.tickOp, s, now, avail => (timer_callback s now avail).1

/-- Invariant of running states: the anchor and the checkpoint base are
positive timestamps. -/
def RunningInv (s : TimeKeeperState) : Prop :=
  s.is_running = true →
    0 < s.data.session_start_time ∧ 0 < s.last_update_time

/-- The periodic update preserves `RunningInv` when run at a positive
wall-clock time. -/
theorem runningInv_periodic (s : TimeKeeperState) (now : ℚ) (avail : Bool)
    (hnow : 0 < now) (h : RunningInv s) :
    RunningInv (periodic_update_total_time s now avail) := by
  unfold periodic_update_total_time
  split
  case isTrue hrun =>
    split
    · split
      · split
        case isTrue hsst =>
          intro _
          exact ⟨hsst, hnow⟩
        case isFalse => exact h
      · exact h
    · exact h
  case isFalse => exact h

/-- `start_session` preserves `RunningInv` when run at a positive
wall-clock time. -/
theorem runningInv_start (s : TimeKeeperState) (now : ℚ) (avail : Bool)
    (hnow : 0 < now) (h : RunningInv s) :
    RunningInv (start_session s now avail).1 := by
  unfold start_session
  split
  · exact h
  · split
    · intro _
      exact ⟨hnow, hnow⟩
    · exact h

/-- `stop_session` preserves `RunningInv`. -/
theorem runningInv_stop (s : TimeKeeperState) (now : ℚ) (avail : Bool)
    (h : RunningInv s) : RunningInv (stop_session s now avail) := by
  unfold stop_session
  split
  · intro hr
    exact absurd hr (by simp)
  · exact h

/-- `reset` preserves `RunningInv`. -/
theorem runningInv_reset (s : TimeKeeperState) (now : ℚ) (avail : Bool)
    (_h : RunningInv s) : RunningInv (reset s now avail) := by
  unfold reset stop_session
  split
  · intro hr
    exact absurd hr (by simp)
  case isFalse hrun =>
    intro hr
    exact absurd hr hrun

/-- `timekeeper_save_pre_handler` preserves `RunningInv` when run at a
positive wall-clock time. -/
theorem runningInv_save (s : TimeKeeperState) (now : ℚ) (avail : Bool)
    (hnow : 0 < now) (h : RunningInv s) :
    RunningInv (timekeeper_save_pre_handler s now avail) := by
  unfold timekeeper_save_pre_handler
  split
  case isTrue hrun =>
    split
    · split
      · intro _
        exact ⟨hnow, (h hrun).2⟩
      · exact h
    · exact h
  case isFalse => exact h

/-- Every operation, run at a positive wall-clock time, preserves
`RunningInv`: in every reachable running state both `session_start_time`
and `last_update_time` are positive. -/
theorem runningInv_applyOp (op : TKOp) (s : TimeKeeperState) (now : ℚ)
    (avail : Bool) (hnow : 0 < now) (h : RunningInv s) :
    RunningInv (applyOp op s now avail) := by
  cases op
  case startOp => exact runningInv_start s now avail hnow h
  case stopOp => exact runningInv_stop s now avail h
  case checkpointOp => exact runningInv_periodic s now avail hnow h
  case saveOp => exact runningInv_save s now avail hnow h
  case resetOp => exact runningInv_reset s now avail h
  case tickOp =>
    show RunningInv (timer_callback s now avail).1
    unfold timer_callback
    split
    · exact runningInv_periodic s now avail hnow h
    · exact h

/-- `stop_session` never decreases `total_time` when the clock is ahead of
`last_update_time`. -/
theorem stop_session_total_mono (s : TimeKeeperState) (now : ℚ)
    (avail : Bool) (hclock : s.last_update_time ≤ now) :
    s.data.total_time ≤ (stop_session s now avail).data.total_time := by
  unfold stop_session
  split
  · dsimp only
    split
    · dsimp only
      linarith
    · exact le_refl _
  · exact le_refl _

/-- The periodic update never decreases `total_time`. -/
theorem periodic_total_mono (s : TimeKeeperState) (now : ℚ) (avail : Bool)
    (hclock : s.last_update_time ≤ now) :
    s.data.total_time ≤
      (periodic_update_total_time s now avail).data.total_time := by
  unfold periodic_update_total_time
  split
  · split
    · split
      · split
        · dsimp only
          linarith
        · exact le_refl _
      · exact le_refl _
    · exact le_refl _
  · exact le_refl _

/-- C1: starting at `t0`, a checkpoint at `t0 + t1` with
`t1 ≥ update_interval`, then a stop at `t0 + t1 + t2`, increases the
persisted `total_time` by exactly `t1 + t2`: the checkpoint counts `t1`,
the stop counts only the remaining `t2`, and no sub-interval is counted
by both. -/
theorem C1_no_double_counting (s : TimeKeeperState) (t0 t1 t2 : ℚ)
    (hidle : s.is_running = false) (ht0 : 0 < t0)
    (ht1 : update_interval ≤ t1) :
    (stop_session
        (periodic_update_total_time (start_session s t0 true).1 (t0 + t1) true)
        (t0 + t1 + t2) true).data.total_time
      = s.data.total_time + (t1 + t2) := by
  have hs1 : (start_session s t0 true).1 =
      { data := { total_time := s.data.total_time, session_start_time := t0 },
        is_running := true, last_update_time := t0, timer := true,
        modal_operator_running := s.modal_operator_running } := by
    simp [start_session, hidle]
  rw [hs1]
  have hs2 : periodic_update_total_time
      { data := { total_time := s.data.total_time, session_start_time := t0 },
        is_running := true, last_update_time := t0, timer := true,
        modal_operator_running := s.modal_operator_running } (t0 + t1) true =
      { data := { total_time := s.data.total_time + t1,
                  session_start_time := t0 },
        is_running := true, last_update_time := t0 + t1, timer := true,
        modal_operator_running := s.modal_operator_running } := by
    simp [periodic_update_total_time, ht0, ht1]
  rw [hs2]
  have hlut : (0:ℚ) < t0 + t1 := by
    have h1 : (10:ℚ) ≤ t1 := ht1
    linarith
  simp only [stop_session, hlut, and_true, if_true, if_pos]
  ring

/-- C1 witness: from the idle zero state, start at 1, checkpoint at 13,
stop at 18 leaves total_time = 17. -/
theorem C1_no_double_counting_witness :
    (stop_session
        (periodic_update_total_time
          (start_session ⟨⟨0, 0⟩, false, 0, false, false⟩ 1 true).1
          (1 + 12) true)
        (1 + 12 + 5) true).data.total_time = 0 + (12 + 5) :=
  C1_no_double_counting ⟨⟨0, 0⟩, false, 0, false, false⟩ 1 12 5
    rfl (by norm_num) (by norm_num [update_interval])

/-- C2 counterexample: in a Running state with `session_start_time = 5`,
`stop_session` leaves `session_start_time` at 5 instead of setting it
to 0 as the claim states. -/
theorem C2_counterexample :
    ¬ (stop_session ⟨⟨0, 5⟩, true, 5, true, false⟩ 8
        true).data.session_start_time = 0 := by
  norm_num [stop_session]

/-- C2 (amended): in the Running state with positive `last_update_time`,
`stop_session` adds `now - last_update_time` to `total_time`, clears
`is_running` and `last_update_time`, unregisters the timer and leaves
`session_start_time` unchanged; in the Idle state it changes nothing. -/
theorem C2_stop_session (s : TimeKeeperState) (now : ℚ) :
    (s.is_running = true → 0 < s.last_update_time →
      stop_session s now true =
        { data := { total_time := s.data.total_time + (now - s.last_update_time),
                    session_start_time := s.data.session_start_time },
          is_running := false, last_update_time := 0, timer := false,
          modal_operator_running := s.modal_operator_running })
    ∧ (s.is_running = false → stop_session s now true = s) := by
  constructor
  · intro hr hl
    simp [stop_session, hr, hl]
  · intro hr
    simp [stop_session, hr]

/-- C2 witness: stopping the running state `(total 1, anchor 5, base 5)`
at time 8 flushes 3 seconds and clears the process-local fields. -/
theorem C2_stop_session_witness :
    stop_session ⟨⟨1, 5⟩, true, 5, true, false⟩ 8 true =
      ⟨⟨1 + (8 - 5), 5⟩, false, 0, false, false⟩ :=
  (C2_stop_session ⟨⟨1, 5⟩, true, 5, true, false⟩ 8).1 rfl (by norm_num)

/-- C3: in a Running state with positive anchor (which `RunningInv`
guarantees for every reachable Running state), a checkpoint at `now` with
`now - last_update_time ≥ update_interval` adds exactly
`now - last_update_time` to `total_time` and sets `last_update_time` to
`now`, leaving `session_start_time` unchanged; below the interval it
changes no state at all. -/
theorem C3_checkpoint (s : TimeKeeperState) (now : ℚ)
    (hr : s.is_running = true) (hsst : 0 < s.data.session_start_time) :
    (update_interval ≤ now - s.last_update_time →
      periodic_update_total_time s now true =
        { s with
          data := { total_time := s.data.total_time + (now - s.last_update_time),
                    session_start_time := s.data.session_start_time },
          last_update_time := now })
    ∧ (now - s.last_update_time < update_interval →
      periodic_update_total_time s now true = s) := by
  constructor
  · intro hge
    simp [periodic_update_total_time, hr, hge, hsst]
  · intro hlt
    simp [periodic_update_total_time, hr, not_le.mpr hlt]

/-- C3 witness: checkpointing `(total 0, anchor 1, base 2)` at time 12
adds 10 seconds and moves the base to 12. -/
theorem C3_checkpoint_witness :
    periodic_update_total_time ⟨⟨0, 1⟩, true, 2, true, false⟩ 12 true =
      ⟨⟨0 + (12 - 2), 1⟩, true, 12, true, false⟩ :=
  (C3_checkpoint ⟨⟨0, 1⟩, true, 2, true, false⟩ 12 rfl (by norm_num)).1
    (by norm_num [update_interval])

/-- C4 counterexample: resetting the Running state
`(total 0, anchor 5, base 5)` at time 8 changes the persisted total_time
(to 3), contradicting the claim that reset leaves it exactly as it was. -/
theorem C4_counterexample :
    ¬ (reset ⟨⟨0, 5⟩, true, 5, true, false⟩ 8 true).data.total_time = 0 := by
  norm_num [reset, stop_session]

/-- C4 (amended): `reset` delegates to `stop_session` and then clears the
modal flag and `last_update_time`: it always ends Idle with
`last_update_time = 0` and the modal flag false, leaves
`session_start_time` unchanged, leaves the persisted record unchanged when
already Idle, and flushes `now - last_update_time` into `total_time` when
Running with positive `last_update_time`. -/
theorem C4_reset (s : TimeKeeperState) (now : ℚ) :
    (reset s now true).is_running = false
    ∧ (reset s now true).last_update_time = 0
    ∧ (reset s now true).modal_operator_running = false
    ∧ (reset s now true).data.session_start_time = s.data.session_start_time
    ∧ (s.is_running = false → (reset s now true).data = s.data)
    ∧ (s.is_running = true → 0 < s.last_update_time →
        (reset s now true).data.total_time
          = s.data.total_time + (now - s.last_update_time)) := by
  by_cases hr : s.is_running = true
  · by_cases hl : 0 < s.last_update_time
    · simp [reset, stop_session, hr, hl]
    · simp [reset, stop_session, hr, hl]
  · have hrf : s.is_running = false := by
      simpa using hr
    simp [reset, stop_session, hrf]

/-- C4 witness: resetting the Running state `(total 2, anchor 7, base 4)`
at time 9 flushes 5 seconds into total_time. -/
theorem C4_reset_witness :
    (reset ⟨⟨2, 7⟩, true, 4, true, true⟩ 9 true).data.total_time
      = 2 + (9 - 4) :=
  (C4_reset ⟨⟨2, 7⟩, true, 4, true, true⟩ 9).2.2.2.2.2 rfl (by norm_num)

/-- C5: while Running with a positive anchor, the save-pre handler only
sets `session_start_time` to `now`, adds nothing to `total_time`, and
`get_current_total_time` evaluated at the same instant returns the same
value whether or not the handler ran. -/
theorem C5_save_continuity (s : TimeKeeperState) (now : ℚ)
    (hr : s.is_running = true) (hsst : 0 < s.data.session_start_time)
    (hnow : 0 < now) :
    timekeeper_save_pre_handler s now true =
      { s with data := { total_time := s.data.total_time,
                         session_start_time := now } }
    ∧ get_current_total_time (timekeeper_save_pre_handler s now true) now true
        = get_current_total_time s now true := by
  have h1 : timekeeper_save_pre_handler s now true =
      { s with data := { total_time := s.data.total_time,
                         session_start_time := now } } := by
    simp [timekeeper_save_pre_handler, hr, hsst]
  refine ⟨h1, ?_⟩
  rw [h1]
  by_cases hl : 0 < s.last_update_time
  · simp [get_current_total_time, hr, hsst, hl, hnow]
  · simp [get_current_total_time, hr, hsst, hl, hnow]

/-- C5 witness: saving mid-session at time 6 moves the anchor to 6, keeps
total_time at 3 and leaves the observed current total unchanged. -/
theorem C5_save_continuity_witness :
    timekeeper_save_pre_handler ⟨⟨3, 2⟩, true, 1, true, false⟩ 6 true =
      ⟨⟨3, 6⟩, true, 1, true, false⟩ ∧
    get_current_total_time
        (timekeeper_save_pre_handler ⟨⟨3, 2⟩, true, 1, true, false⟩ 6 true)
        6 true
      = get_current_total_time ⟨⟨3, 2⟩, true, 1, true, false⟩ 6 true :=
  C5_save_continuity ⟨⟨3, 2⟩, true, 1, true, false⟩ 6 rfl (by norm_num)
    (by norm_num)

/-- C6: `start_session` is idempotent: called while already Running it
returns success and changes no state at all, so two consecutive calls
have the same observable effect as one. -/
theorem C6_start_idempotent (s : TimeKeeperState) (now : ℚ) (avail : Bool)
    (hr : s.is_running = true) :
    start_session s now avail = (s, true) := by
  simp [start_session, hr]

/-- C6 witness: a second `start_session` on an already-running state is
the identity and returns true. -/
theorem C6_start_idempotent_witness :
    start_session ⟨⟨1, 2⟩, true, 2, true, false⟩ 7 true =
      (⟨⟨1, 2⟩, true, 2, true, false⟩, true) :=
  C6_start_idempotent ⟨⟨1, 2⟩, true, 2, true, false⟩ 7 true rfl

/-- C7: the persisted `total_time` never decreases: every operation of the
controller, run in any state with the clock at or ahead of the stored
`last_update_time`, yields a `total_time` at least the one before. -/
theorem C7_total_time_monotone (op : TKOp) (s : TimeKeeperState) (now : ℚ)
    (avail : Bool) (hclock : s.last_update_time ≤ now) :
    s.data.total_time ≤ (applyOp op s now avail).data.total_time := by
  cases op
  case startOp =>
    show s.data.total_time ≤ (start_session s now avail).1.data.total_time
    unfold start_session
    split
    · exact le_refl _
    · split
      · exact le_refl _
      · exact le_refl _
  case stopOp => exact stop_session_total_mono s now avail hclock
  case checkpointOp => exact periodic_total_mono s now avail hclock
  case saveOp =>
    show s.data.total_time ≤
      (timekeeper_save_pre_handler s now avail).data.total_time
    unfold timekeeper_save_pre_handler
    split
    · split
      · split
        · exact le_refl _
        · exact le_refl _
      · exact le_refl _
    · exact le_refl _
  case resetOp =>
    show s.data.total_time ≤ (reset s now avail).data.total_time
    unfold reset
    exact stop_session_total_mono s now avail hclock
  case tickOp =>
    show s.data.total_time ≤ (timer_callback s now avail).1.data.total_time
    unfold timer_callback
    split
    · exact periodic_total_mono s now avail hclock
    · exact le_refl _

/-- C7 witness: stopping `(total 1, anchor 3, base 2)` at time 5 does not
decrease total_time. -/
theorem C7_total_time_monotone_witness :
    (1:ℚ) ≤ (applyOp TKOp.stopOp ⟨⟨1, 3⟩, true, 2, true, false⟩ 5
        true).data.total_time :=
  C7_total_time_monotone TKOp.stopOp ⟨⟨1, 3⟩, true, 2, true, false⟩ 5 true
    (by norm_num)

/-- C8: a timer tick while not running performs no accumulation, changes
no state and returns `none` so the loop stops rearming; while running it
returns the fixed `0.3` second re-arm interval. -/
theorem C8_timer_callback (s : TimeKeeperState) (now : ℚ) (avail : Bool) :
    (s.is_running = false → timer_callback s now avail = (s, none))
    ∧ (s.is_running = true →
        (timer_callback s now avail).2 = some (3 / 10)) := by
  constructor
  · intro hr
    simp [timer_callback, hr]
  · intro hr
    simp [timer_callback, hr]

/-- C8 witness: a tick on an idle state returns the state unchanged with
`none`; a tick on a running state returns the 0.3 s interval. -/
theorem C8_timer_callback_witness :
    timer_callback ⟨⟨4, 0⟩, false, 0, false, false⟩ 9 true =
      (⟨⟨4, 0⟩, false, 0, false, false⟩, none) ∧
    (timer_callback ⟨⟨4, 2⟩, true, 1, true, false⟩ 9 true).2 =
      some (3 / 10) :=
  ⟨(C8_timer_callback ⟨⟨4, 0⟩, false, 0, false, false⟩ 9 true).1 rfl,
   (C8_timer_callback ⟨⟨4, 2⟩, true, 1, true, false⟩ 9 true).2 rfl⟩

/-- C10: `get_current_total_time` is total: on any storage failure it
returns 0, and when Idle, or when `last_update_time = 0` or
`session_start_time = 0`, it returns exactly the stored `total_time` with
no wall-clock delta added. -/
theorem C10_get_current_total_time (s : TimeKeeperState) (now : ℚ) :
    get_current_total_time s now false = 0
    ∧ (s.is_running = false ∨ s.last_update_time = 0 ∨
         s.data.session_start_time = 0 →
        get_current_total_time s now true = s.data.total_time) := by
  constructor
  · simp [get_current_total_time]
  · intro h
    rcases h with h | h | h
    · simp [get_current_total_time, h]
    · simp [get_current_total_time, h]
    · simp [get_current_total_time, h]

/-- C10 witness: with storage unavailable the reader returns 0; idle with
storage available it returns the stored total 6. -/
theorem C10_get_current_total_time_witness :
    get_current_total_time ⟨⟨6, 3⟩, false, 2, false, false⟩ 11 false = 0 ∧
    get_current_total_time ⟨⟨6, 3⟩, false, 2, false, false⟩ 11 true = 6 :=
  ⟨(C10_get_current_total_time ⟨⟨6, 3⟩, false, 2, false, false⟩ 11).1,
   (C10_get_current_total_time ⟨⟨6, 3⟩, false, 2, false, false⟩ 11).2
     (Or.inl rfl)⟩

/-- Python `%` on floats, `a % b = a - b * floor(a / b)`. -/
def python_mod (a b : ℚ) : ℚ := a - b * (⌊a / b⌋ : ℤ)

/-- The clamp at the top of `draw_timekeeper_header`: negative values to
0, values above 999999 to 999999. -/
def clamp_display (t : ℚ) : ℚ :=
  if t < 0 then 0 else if 999999 < t then 999999 else t

/-- Python `f"{n:02d}"` for a natural number. -/
def pad2 (n : ℕ) : String :=
  if n < 10 then "0" ++ toString n else toString n

/-- `draw_timekeeper_header`, as a function of the total-seconds value it
formats: clamp, then `hours = int(t // 3600)`,
`minutes = int((t % 3600) // 60)`, `seconds = int(t % 60)` (all
non-negative after the clamp, so `int` truncation is the floor), rendered
unpadded in the hour field when `hours > 99` and two-digit padded
otherwise. -/
def draw_timekeeper_header (total_seconds : ℚ) : String :=
  let t := clamp_display total_seconds
  let hours := ⌊t / 3600⌋₊
  let minutes := ⌊python_mod t 3600 / 60⌋₊
  let seconds := ⌊python_mod t 60⌋₊
  if 99 < hours then
    "作業時間: " ++ toString hours ++ ":" ++ pad2 minutes ++ ":" ++
      pad2 seconds
  else
    "作業時間: " ++ pad2 hours ++ ":" ++ pad2 minutes ++ ":" ++
      pad2 seconds

/-- Modelled from the spec's display-format contract: clamp to
`[0, 999999]`, take the whole-second value `n`, and render
`H:MM:SS` with `H = n / 3600`, `M = n % 3600 / 60`, `S = n % 60`, minutes
and seconds always two-digit zero-padded, the hour field two-digit
zero-padded while below 100 and unpadded from 100 on. -/
def render_hms_spec (total_seconds : ℚ) : String :=
  let n := ⌊clamp_display total_seconds⌋₊
  "作業時間: " ++
    (if n / 3600 < 100 then pad2 (n / 3600) else toString (n / 3600)) ++
    ":" ++ pad2 (n % 3600 / 60) ++ ":" ++ pad2 (n % 60)

/-- For non-negative `c`, the floor of the Python float remainder by a
natural number is the remainder of the floors. -/
theorem natFloor_python_mod (c : ℚ) (b : ℕ) (hc : 0 ≤ c) :
    ⌊python_mod c (b : ℚ)⌋₊ = ⌊c⌋₊ % b := by
  unfold python_mod
  have h1 : ((⌊c / (b : ℚ)⌋ : ℤ) : ℚ) = ((⌊c⌋₊ / b : ℕ) : ℚ) := by
    rw [← Nat.floor_div_nat c b]
    rw [← Int.natCast_floor_eq_floor (div_nonneg hc (Nat.cast_nonneg b))]
    push_cast
    ring
  rw [h1]
  have h2 : (b : ℚ) * ((⌊c⌋₊ / b : ℕ) : ℚ) = ((b * (⌊c⌋₊ / b) : ℕ) : ℚ) := by
    push_cast
    ring
  rw [h2, Nat.floor_sub_nat]
  have h3 := Nat.mod_add_div (⌊c⌋₊) b
  omega

/-- The clamped value is non-negative. -/
theorem clamp_display_nonneg (t : ℚ) : 0 ≤ clamp_display t := by
  unfold clamp_display
  split
  · exact le_refl 0
  next h =>
    split
    · norm_num
    · exact le_of_not_lt h

/-- C9: the status-bar formatter first clamps the total-seconds value to
`[0, 999999]` and then renders `H:MM:SS` with minutes and seconds always
two-digit zero-padded, the hour field two-digit zero-padded below 100
hours and unpadded from 100 hours on — it coincides with the spec's
rendering on every input. -/
theorem C9_display_format (t : ℚ) :
    draw_timekeeper_header t = render_hms_spec t := by
  have hc : 0 ≤ clamp_display t := clamp_display_nonneg t
  have hh : ⌊clamp_display t / 3600⌋₊ = ⌊clamp_display t⌋₊ / 3600 :=
    Nat.floor_div_ofNat (clamp_display t) 3600
  have hm0 := natFloor_python_mod (clamp_display t) 3600 hc
  have hs0 := natFloor_python_mod (clamp_display t) 60 hc
  simp only [Nat.cast_ofNat] at hm0 hs0
  have hm : ⌊python_mod (clamp_display t) 3600 / 60⌋₊ =
      ⌊clamp_display t⌋₊ % 3600 / 60 := by
    rw [Nat.floor_div_ofNat, hm0]
  simp only [draw_timekeeper_header, render_hms_spec]
  rw [hh, hm, hs0]
  by_cases h : 99 < ⌊clamp_display t⌋₊ / 3600
  · rw [if_pos h, if_neg (by omega)]
  · rw [if_neg h, if_pos (by omega)]
